import Mathlib

/-!
Shallow embedding of the ZumPay public API dispatcher (`src/unnamed/part_000`).

The embedding models, straight from the source:
  * `toNumber` (lines 42-51) over a small model of JavaScript values,
    including JavaScript's `parseInt` / number-string round-trip check;
  * the `POST /v1/new` handler (lines 122-249) as `Zum.submit`, returning the
    validation outcome together with the ordered list of broker side effects
    (consumer attachment, publish, timer start);
  * the startup bootstrap (lines 57-61) as `Zum.startupActions`;
  * the reply-queue consume callback (lines 195-228) as `Zum.consumeCallback`,
    operating on an explicit per-request dispatch state, with the HTTP layer's
    write-once response discipline (a second write raises) made explicit;
  * the 5000 ms client-side timer (lines 241-244) as `Zum.timerStep`, and the
    interleaving of reply deliveries and timer expiry as a run of events.
-/

namespace Zum

/-- A JavaScript number: either a finite value (modelled exactly as a
rational; the source only ever produces integral values here) or `NaN`. -/
inductive JNumber where
  | fin (q : ℚ)
  | nan
deriving DecidableEq

/-- A JavaScript value as it can appear in a JSON request-body field. -/
inductive JVal where
  | num (v : JNumber)
  | str (s : String)
  | undef
  | other
deriving DecidableEq

/-- Whitespace skipped by JavaScript's `parseInt` before reading digits. -/
def isJsSpace (c : Char) : Bool :=
  c = ' ' || c = '\t' || c = '\n' || c = '\r'

/-- Value of a nonempty list of decimal digit characters. -/
def digitsToNat (cs : List Char) : Nat :=
  cs.foldl (fun a c => a * 10 + (c.toNat - '0'.toNat)) 0

/-- Core of JavaScript's `parseInt` (radix 10) after whitespace skipping:
optional sign, then the maximal decimal-digit prefix; `none` models `NaN`. -/
def parseIntCore : List Char → Option Int
  | [] => none
  | '-' :: rest =>
      let ds := rest.takeWhile Char.isDigit
      if ds = [] then none else some (-(digitsToNat ds : Int))
  | '+' :: rest =>
      let ds := rest.takeWhile Char.isDigit
      if ds = [] then none else some (digitsToNat ds : Int)
  | cs =>
      let ds := cs.takeWhile Char.isDigit
      if ds = [] then none else some (digitsToNat ds : Int)

/-- JavaScript's `parseInt` on a string (`none` models `NaN`). -/
def parseIntJS (s : String) : Option Int :=
  parseIntCore (s.data.dropWhile isJsSpace)

/-- `toNumber` (source lines 42-51).

`if (typeof term === 'number' && term % 1 === 0) return term;`
`if (parseInt(term).toString() === term) return parseInt(term); else return false;`

A finite number is integral iff its denominator is 1.  For a non-integral or
`NaN` number the second test strictly compares a string against a number and
is therefore false.  For a string the second test succeeds either when the
parsed integer prints back to exactly the original string, or when `parseInt`
returned `NaN` and the original string is `"NaN"` (in which case the function
returns the `NaN` number).  `none` models the returned `false`. -/
def toNumber : JVal → Option JNumber
  | JVal.num (JNumber.fin q) => if q.den = 1 then some (JNumber.fin q) else none
  | JVal.num JNumber.nan => none
  | JVal.str s =>
      match parseIntJS s with
      | some n => if toString n = s then some (JNumber.fin (n : ℚ)) else none
      | none => if s = "NaN" then some JNumber.nan else none
  | JVal.undef => none
  | JVal.other => none

/-- The configuration values the handler reads from `config.json`
(the file itself is not part of the sources; the handler is parameterized
over these values). -/
structure Config where
  coinDecimals : Nat
  maximumConfirmations : Int
  defaultConfirmations : Int
  coinUri : String
deriving DecidableEq

/-- The decoded JSON request body of `POST /v1/new` (fields read at
lines 123-128).  `userDefined` is opaque caller data echoed back verbatim. -/
structure RequestBody where
  amount : JVal
  callback : Option String
  address : Option String
  name : Option String
  userDefined : String
  confirmations : JVal
deriving DecidableEq

/-- JavaScript's `x || false` applied to a string-or-absent field
(lines 124-126): an absent field or an empty string is replaced by `false`,
modelled as `none`. -/
def jsOrFalse : Option String → Option String
  | some s => if s = "" then none else some s
  | none => none

/-- Truthiness test `!atomicAmount` (line 130) on the result of `toNumber`:
`false`, the number `0`, and `NaN` are falsy. -/
def numFalsy : Option JNumber → Bool
  | none => true
  | some JNumber.nan => true
  | some (JNumber.fin q) => decide (q = 0)

/-- `atomicAmount === 0` (line 157). -/
def jnumIsZero : Option JNumber → Bool
  | some (JNumber.fin q) => decide (q = 0)
  | _ => false

/-- `atomicAmount < 0` (line 157); any comparison with `NaN` is false. -/
def jnumNeg : Option JNumber → Bool
  | some (JNumber.fin q) => decide (q < 0)
  | _ => false

/-- `confirmations < 0` (line 169). -/
def jnumLtZeroB : JNumber → Bool
  | JNumber.fin q => decide (q < 0)
  | JNumber.nan => false

/-- `confirmations > Config.maximumConfirmations` (line 169). -/
def jnumGtMaxB (c : JNumber) (max : Int) : Bool :=
  match c with
  | JNumber.fin q => decide ((max : ℚ) < q)
  | JNumber.nan => false

/-- Unwrap the already-validated amount (on every dispatch path the
argument is `some`). -/
def jnumGet : Option JNumber → JNumber
  | some v => v
  | none => JNumber.fin 0

/-- `cryptoUtils.decodeAddress(address)` inside `try`/`catch`
(lines 140-145): the external collaborator `decodes` succeeds or throws on a
string; on the non-string `false` (absent address) it throws. -/
def addressDecodes (decodes : String → Bool) : Option String → Bool
  | some s => decodes s
  | none => false

/-- `callback.substring(0, 4).toLowerCase()` (line 150): the first four
characters of the string, each lowercased. -/
def substringToLower4 (s : String) : String :=
  String.mk ((s.data.take 4).map Char.toLower)

/-- The callback check (lines 149-154): when a callback is present its first
four characters, lowercased, must spell `http`. -/
def callbackOk : Option String → Bool
  | some cb => (substringToLower4 cb == "http")
  | none => true

/-- The work item published to the work queue (lines 185-191). -/
structure WalletRequest where
  amount : JNumber
  address : Option String
  confirmations : JNumber
  callback : Option String
  callerData : String
deriving DecidableEq

/-- The message properties of the publish (lines 232-236). -/
structure PublishOptions where
  correlationId : String
  replyTo : String
  expiration : Nat
deriving DecidableEq

/-- The client-side timer budget, ms (line 244). -/
def clientTimeoutMs : Nat := 5000

/-- The broker-side message expiration, ms (line 235). -/
def messageExpirationMs : Nat := 2000

/-- A broker-visible side effect performed by the process. -/
inductive Action where
  | connect
  | createChannel
  | assertQueue
  | consume
  | publish (wr : WalletRequest) (opts : PublishOptions)
  | startTimer (ms : Nat)
deriving DecidableEq

/-- Is this action a consumer attachment? -/
def isConsume : Action → Bool
  | Action.consume => true
  | _ => false

/-- Is this action a publish to the work queue? -/
def isPublish : Action → Bool
  | Action.publish _ _ => true
  | _ => false

/-- Outcome of the synchronous part of the handler: a `res.status(400).send()`
rejection, or a dispatched request awaiting its reply. -/
inductive SubmitResult where
  | reject (status : Nat) (reason : String)
  | dispatched (requestId : String) (wr : WalletRequest)
deriving DecidableEq

/-- Did the handler get past validation and dispatch the work item? -/
def isDispatched : SubmitResult → Bool
  | SubmitResult.dispatched _ _ => true
  | SubmitResult.reject _ _ => false

/-- The dispatch tail of the handler (lines 180-244): build the wallet
request, attach a consumer to the reply queue, publish with
`correlationId`/`replyTo`/`expiration`, and start the 5000 ms timer. -/
def mkDispatch (rq requestId : String) (atomicAmount : Option JNumber)
    (address : Option String) (conf : JNumber) (callback : Option String)
    (callerData : String) : SubmitResult × List Action :=
  let wr : WalletRequest :=
    { amount := jnumGet atomicAmount, address := address,
      confirmations := conf, callback := callback, callerData := callerData }
  (SubmitResult.dispatched requestId wr,
    [Action.consume,
     Action.publish wr
       { correlationId := requestId, replyTo := rq,
         expiration := messageExpirationMs },
     Action.startTimer clientTimeoutMs])

/-- The `POST /v1/new` handler (lines 122-249), parameterized over the
configuration, the external address decoder, the server-assigned reply-queue
name `rq`, and the generated request id.  The checks appear in source order:
amount truthiness (line 130), address decoding (lines 140-145), callback
scheme (lines 149-154), amount positivity (lines 157-160), confirmations
range (lines 165-178); then the dispatch (lines 180-244). -/
def submit (cfg : Config) (decodes : String → Bool) (rq requestId : String)
    (body : RequestBody) : SubmitResult × List Action :=
  if numFalsy (toNumber body.amount) then
    (SubmitResult.reject 400 "Invalid amount supplied", [])
  else if !(addressDecodes decodes (jsOrFalse body.address)) then
    (SubmitResult.reject 400 "Invalid address supplied", [])
  else if !(callbackOk (jsOrFalse body.callback)) then
    (SubmitResult.reject 400 "Invalid callback URL supplied", [])
  else if numFalsy (toNumber body.amount) || jnumIsZero (toNumber body.amount)
      || jnumNeg (toNumber body.amount) then
    (SubmitResult.reject 400 "Invalid amount requested", [])
  else
    match toNumber body.confirmations with
    | some c =>
        if jnumLtZeroB c || jnumGtMaxB c cfg.maximumConfirmations then
          (SubmitResult.reject 400 "Invalid confirmations requested", [])
        else
          mkDispatch rq requestId (toNumber body.amount)
            (jsOrFalse body.address) c (jsOrFalse body.callback)
            body.userDefined
    | none =>
        mkDispatch rq requestId (toNumber body.amount)
          (jsOrFalse body.address)
          (JNumber.fin (cfg.defaultConfirmations : ℚ))
          (jsOrFalse body.callback) body.userDefined

/-- The startup bootstrap (lines 57-61): connect, create the channel, assert
the exclusive reply queue.  No consumer is attached here. -/
def startupActions : List Action :=
  [Action.connect, Action.createChannel, Action.assertQueue]

/-- The JSON object a backend worker puts in a reply message
(fields read at lines 198-219). -/
structure WorkerResponse where
  address : String
  scanHeight : Int
  maxHeight : Int
  publicKey : String
deriving DecidableEq

/-- The content bytes of a delivered reply: either they parse as the worker's
JSON object, or `JSON.parse` (line 198) throws on them. -/
inductive Content where
  | json (wr : WorkerResponse)
  | notJson
deriving DecidableEq

/-- Does the content parse as JSON? -/
def Content.isJson : Content → Bool
  | Content.json _ => true
  | Content.notJson => false

/-- A (non-null) message delivered on the reply queue. -/
structure Message where
  correlationId : String
  content : Content
deriving DecidableEq

/-- A value in the JSON response object sent back to the caller. -/
inductive RVal where
  | vstr (s : String)
  | vnum (q : ℚ)
  | vconf (v : JNumber)
  | vdata (d : String)
deriving DecidableEq

/-- An HTTP response: status code and JSON body as an association list of
field names to values (the body of `res.json`, empty for `res.send()`). -/
structure HttpResp where
  status : Nat
  body : List (String × RVal)
deriving DecidableEq

/-- Observable per-request dispatch state: the responses the HTTP layer has
actually written to the caller (the layer writes at most one; a later write
attempt raises), whether the timer is cancelled (or has already fired), and
how many exceptions have escaped callbacks. -/
structure DispatchState where
  responses : List HttpResp
  timerCancelled : Bool
  raises : Nat
deriving DecidableEq

/-- The state right after the handler's synchronous part finished: nothing
sent, timer armed. -/
def st0 : DispatchState :=
  { responses := [], timerCancelled := false, raises := 0 }

/-- The values the consume callback (lines 195-228) captures from the
enclosing handler invocation. -/
structure PendingCtx where
  requestId : String
  atomicAmount : ℚ
  amount : ℚ
  callerData : String
  requestConfirmations : JNumber
  name : Option String
  coinUri : String

/-- JavaScript stringification of the (integral) amount inside the QR-code
URL (line 220). -/
def numToJsString (q : ℚ) : String :=
  if q.den = 1 then toString q.num else toString q

/-- The QR-code URL (line 220); `enc` is `encodeURIComponent`. -/
def qrCodeUrl (ctx : PendingCtx) (enc : String → String)
    (sendToAddress : String) : String :=
  "https://chart.googleapis.com/chart?cht=qr&chs=256x256&chl=" ++ ctx.coinUri
    ++ "://" ++ sendToAddress ++ "?amount=" ++ numToJsString ctx.atomicAmount
    ++ (match ctx.name with
        | some n => "&name=" ++ enc n
        | none => "")

/-- The JSON object passed to `res.json` on a matched reply (lines 211-222). -/
def successResponse (ctx : PendingCtx) (enc : String → String)
    (wr : WorkerResponse) : HttpResp :=
  { status := 200,
    body :=
      [("sendToAddress", RVal.vstr wr.address),
       ("atomicAmount", RVal.vnum ctx.atomicAmount),
       ("amount", RVal.vnum ctx.amount),
       ("userDefined", RVal.vdata ctx.callerData),
       ("startHeight", RVal.vnum (wr.scanHeight : ℚ)),
       ("endHeight", RVal.vnum (wr.maxHeight : ℚ)),
       ("confirmations", RVal.vconf ctx.requestConfirmations),
       ("callbackPublicKey", RVal.vstr wr.publicKey),
       ("qrCode", RVal.vstr (qrCodeUrl ctx enc wr.address))] }

/-- The `res.status(500).send()` of the timed-out request (line 243). -/
def timeoutResponse : HttpResp :=
  { status := 500, body := [] }

/-- A broker operation performed by the consume callback. -/
inductive CbAction where
  | ack
  | nack
  | clearTimer
  | respond (r : HttpResp)
deriving DecidableEq

/-- What one invocation of the consume callback did. -/
structure CbResult where
  state : DispatchState
  actions : List CbAction
  raised : Bool
deriving DecidableEq

/-- The consume callback (lines 195-228) on a delivered message.

Matching branch (lines 197-222): `JSON.parse` runs first and throws on
malformed content (uncaught — `raised`); otherwise the message is
acknowledged, the timer is cleared, and `res.json` is attempted — which
raises if a response has already been written (the HTTP layer is
write-once).  Non-matching branch (lines 223-227): `channel.nack`. -/
def consumeCallback (ctx : PendingCtx) (enc : String → String)
    (st : DispatchState) (msg : Message) : CbResult :=
  if msg.correlationId = ctx.requestId then
    match msg.content with
    | Content.json wr =>
        let st1 : DispatchState := { st with timerCancelled := true }
        let resp := successResponse ctx enc wr
        if st1.responses = [] then
          { state := { st1 with responses := [resp] },
            actions := [CbAction.ack, CbAction.clearTimer,
                        CbAction.respond resp],
            raised := false }
        else
          { state := { st1 with raises := st1.raises + 1 },
            actions := [CbAction.ack, CbAction.clearTimer],
            raised := true }
    | Content.notJson =>
        { state := { st with raises := st.raises + 1 },
          actions := [], raised := true }
  else
    { state := st, actions := [CbAction.nack], raised := false }

/-- Expiry of the one-shot 5000 ms timer (lines 241-244): if the timer was
cancelled nothing happens; otherwise the timer is consumed and
`res.status(500).send()` is attempted. -/
def timerStep (st : DispatchState) : DispatchState :=
  if st.timerCancelled then st
  else
    let st1 : DispatchState := { st with timerCancelled := true }
    if st1.responses = [] then { st1 with responses := [timeoutResponse] }
    else { st1 with raises := st1.raises + 1 }

/-- An event observed by a pending request after its dispatch: a reply-queue
delivery, or expiry of its timer. -/
inductive DEvent where
  | deliver (m : Message)
  | fire
deriving DecidableEq

/-- Process one event on the single-threaded event loop. -/
def stepEv (ctx : PendingCtx) (enc : String → String)
    (st : DispatchState) : DEvent → DispatchState
  | DEvent.deliver m => (consumeCallback ctx enc st m).state
  | DEvent.fire => timerStep st

/-- Process a whole interleaving of deliveries and timer expiry. -/
def runEvents (ctx : PendingCtx) (enc : String → String)
    (st : DispatchState) (run : List DEvent) : DispatchState :=
  run.foldl (stepEv ctx enc) st

/-- An event that makes the request reach a terminal outcome: timer expiry,
or delivery of a matching reply with parseable content. -/
def isTrigger (ctx : PendingCtx) : DEvent → Bool
  | DEvent.fire => true
  | DEvent.deliver m =>
      decide (m.correlationId = ctx.requestId) && m.content.isJson

/-- The request-body field holds a strictly positive integer: either the
integral number `n` itself or the canonical decimal string for `n`. -/
def IsStrictlyPositiveInteger (v : JVal) : Prop :=
  ∃ n : Int, 0 < n ∧
    (v = JVal.num (JNumber.fin (n : ℚ)) ∨ v = JVal.str (toString n))

/-- The string does not survive the source's round-trip check
`parseInt(term).toString() === term` (line 46). -/
def roundTripFails (s : String) : Bool :=
  match parseIntJS s with
  | some n => toString n != s
  | none => s != "NaN"

/-- A supplied confirmations value that is not an integer: a fractional
number, or a string that fails the `parseInt` round-trip. -/
def NonIntegerConfirmations (v : JVal) : Prop :=
  (∃ q : ℚ, v = JVal.num (JNumber.fin q) ∧ q.den ≠ 1) ∨
    (∃ s : String, v = JVal.str s ∧ roundTripFails s = true)

/-- A concrete configuration used for closed evaluations. -/
def cfgEx : Config :=
  { coinDecimals := 2, maximumConfirmations := 60,
    defaultConfirmations := 30, coinUri := "zum" }

/-- An address decoder that accepts every string. -/
def decodeAll : String → Bool := fun _ => true

/-- A fully valid request body: positive integral amount, decodable address,
no callback, confirmations absent. -/
def bodyEx : RequestBody :=
  { amount := JVal.num (JNumber.fin 5), callback := none,
    address := some "addr", name := none, userDefined := "",
    confirmations := JVal.undef }

/-- `bodyEx` with amount 0. -/
def bodyZero : RequestBody := { bodyEx with amount := JVal.num (JNumber.fin 0) }

/-- `bodyEx` with confirmations 61, above `cfgEx.maximumConfirmations`. -/
def bodyConfHigh : RequestBody :=
  { bodyEx with confirmations := JVal.num (JNumber.fin 61) }

/-- `bodyEx` with confirmations -1, below the allowed range. -/
def bodyConfNeg : RequestBody :=
  { bodyEx with confirmations := JVal.num (JNumber.fin (-1)) }

/-- `bodyEx` with the empty string supplied as callback. -/
def bodyEmptyCb : RequestBody := { bodyEx with callback := some "" }

/-- `bodyEx` with a non-http callback. -/
def bodyBadCb : RequestBody := { bodyEx with callback := some "ftp://x" }

/-- `bodyEx` with the non-numeric string "abc" supplied as confirmations. -/
def bodyAbc : RequestBody := { bodyEx with confirmations := JVal.str "abc" }

/-- The wallet request `submit cfgEx decodeAll "rq" "rid" bodyEx` publishes. -/
def wrDefault : WalletRequest :=
  { amount := JNumber.fin 5, address := some "addr",
    confirmations := JNumber.fin 30, callback := none, callerData := "" }

/-- A concrete pending-request context. -/
def ctxEx : PendingCtx :=
  { requestId := "rid", atomicAmount := 1000000, amount := 10000,
    callerData := "", requestConfirmations := JNumber.fin 30,
    name := none, coinUri := "zum" }

/-- The worker reply of the spec's scenario. -/
def wrSc : WorkerResponse :=
  { address := "valid123", scanHeight := 100, maxHeight := 200,
    publicKey := "pub" }

/-- A delivery of `wrSc` carrying `ctxEx`'s correlation id. -/
def msgSc : Message :=
  { correlationId := "rid", content := Content.json wrSc }

/-- A well-formed reply carrying a foreign correlation id. -/
def msgForeign : Message :=
  { correlationId := "other", content := Content.json wrSc }

/-- Another reply with a foreign correlation id. -/
def msgForeign2 : Message :=
  { correlationId := "zzz", content := Content.json wrSc }

/-- A matching reply whose content does not parse as JSON. -/
def msgBadJson : Message :=
  { correlationId := "rid", content := Content.notJson }

/-- Invariant of the per-request dispatch state: at most one response has
been written, and a cancelled (or fired) timer implies a response exists. -/
def MachineInv (st : DispatchState) : Prop :=
  st.responses.length ≤ 1 ∧ (st.timerCancelled = true → st.responses ≠ [])

theorem toNumber_eq_some_fin (v : JVal) (q : ℚ)
    (h : toNumber v = some (JNumber.fin q)) :
    (v = JVal.num (JNumber.fin q) ∧ q.den = 1) ∨
      (∃ n : Int, q = (n : ℚ) ∧ v = JVal.str (toString n)) := by
  cases v with
  | num w =>
      cases w with
      | fin p =>
          simp only [toNumber] at h
          by_cases hd : p.den = 1
          · rw [if_pos hd] at h
            simp only [Option.some.injEq, JNumber.fin.injEq] at h
            subst h
            exact Or.inl ⟨rfl, hd⟩
          · rw [if_neg hd] at h
            exact absurd h (by simp)
      | nan => simp [toNumber] at h
  | str s =>
      simp only [toNumber] at h
      cases hp : parseIntJS s with
      | some n =>
          simp only [hp] at h
          by_cases ht : toString n = s
          · rw [if_pos ht] at h
            simp only [Option.some.injEq, JNumber.fin.injEq] at h
            exact Or.inr ⟨n, h.symm, by rw [← ht]⟩
          · rw [if_neg ht] at h
            exact absurd h (by simp)
      | none =>
          simp only [hp] at h
          by_cases hs : s = "NaN"
          · rw [if_pos hs] at h
            exact absurd h (by simp)
          · rw [if_neg hs] at h
            exact absurd h (by simp)
  | undef => simp [toNumber] at h
  | other => simp [toNumber] at h

theorem isPos_of_accepted (v : JVal) (q : ℚ)
    (h : toNumber v = some (JNumber.fin q)) (hq : 0 < q) :
    IsStrictlyPositiveInteger v := by
  rcases toNumber_eq_some_fin v q h with ⟨hv, hden⟩ | ⟨n, hn, hv⟩
  · exact ⟨q.num, Rat.num_pos.mpr hq,
      Or.inl (by rw [hv, Rat.coe_int_num_of_den_eq_one hden])⟩
  · refine ⟨n, ?_, Or.inr hv⟩
    have h0 : (0 : ℚ) < (n : ℚ) := hn ▸ hq
    exact_mod_cast h0

theorem numFalsy_false_shape (a : Option JNumber) (h : numFalsy a = false) :
    ∃ q : ℚ, a = some (JNumber.fin q) ∧ q ≠ 0 := by
  cases a with
  | none => simp [numFalsy] at h
  | some w =>
      cases w with
      | fin q => exact ⟨q, rfl, by simpa [numFalsy] using h⟩
      | nan => simp [numFalsy] at h

theorem submit_total_cases (cfg : Config) (decodes : String → Bool)
    (rq rid : String) (body : RequestBody) :
    (∃ r, submit cfg decodes rq rid body = (SubmitResult.reject 400 r, [])) ∨
      (∃ c, submit cfg decodes rq rid body =
          mkDispatch rq rid (toNumber body.amount) (jsOrFalse body.address) c
            (jsOrFalse body.callback) body.userDefined ∧
        numFalsy (toNumber body.amount) = false ∧
        jnumIsZero (toNumber body.amount) = false ∧
        jnumNeg (toNumber body.amount) = false ∧
        addressDecodes decodes (jsOrFalse body.address) = true ∧
        callbackOk (jsOrFalse body.callback) = true ∧
        ((toNumber body.confirmations = some c ∧ jnumLtZeroB c = false ∧
            jnumGtMaxB c cfg.maximumConfirmations = false) ∨
          (toNumber body.confirmations = none ∧
            c = JNumber.fin (cfg.defaultConfirmations : ℚ)))) := by
  unfold submit
  split
  · exact Or.inl ⟨_, rfl⟩
  next h1 =>
    split
    · exact Or.inl ⟨_, rfl⟩
    next h2 =>
      split
      · exact Or.inl ⟨_, rfl⟩
      next h3 =>
        split
        · exact Or.inl ⟨_, rfl⟩
        next h4 =>
          rw [Bool.not_eq_true] at h1 h4
          simp only [Bool.not_eq_true, Bool.not_eq_false'] at h2 h3
          simp only [Bool.or_eq_false_iff] at h4
          split
          next c heq =>
            split
            · exact Or.inl ⟨_, rfl⟩
            next h5 =>
              rw [Bool.not_eq_true] at h5
              simp only [Bool.or_eq_false_iff] at h5
              exact Or.inr ⟨c, rfl, h1, h4.1.2, h4.2, h2, h3,
                Or.inl ⟨heq, h5.1, h5.2⟩⟩
          next heq =>
            exact Or.inr ⟨_, rfl, h1, h4.1.2, h4.2, h2, h3, Or.inr ⟨heq, rfl⟩⟩

theorem publish_default_of_conf_none (cfg : Config) (decodes : String → Bool)
    (rq rid : String) (body : RequestBody)
    (hnone : toNumber body.confirmations = none) (wr : WalletRequest)
    (opts : PublishOptions)
    (hmem : Action.publish wr opts ∈ (submit cfg decodes rq rid body).2) :
    wr.confirmations = JNumber.fin (cfg.defaultConfirmations : ℚ) := by
  rcases submit_total_cases cfg decodes rq rid body with ⟨r, he⟩ |
    ⟨c, he, _, _, _, _, _, hconf⟩
  · rw [he] at hmem
    simp at hmem
  · rcases hconf with ⟨hsome, _, _⟩ | ⟨_, hc⟩
    · rw [hnone] at hsome
      cases hsome
    · rw [he] at hmem
      simp only [mkDispatch, List.mem_cons, List.not_mem_nil, or_false] at hmem
      rcases hmem with h | h | h
      · cases h
      · rw [Action.publish.injEq] at h
        rw [h.1, hc]
      · cases h

/-- C4: for every request whose amount field is not a strictly positive
integer (zero, negative, non-integral, or non-numeric), `submit` rejects
with HTTP 400 and performs no broker interaction: nothing is published,
no consumer is attached, and no timer is started. -/
theorem submit_rejects_nonpositive_amount (cfg : Config)
    (decodes : String → Bool) (rq rid : String) (body : RequestBody)
    (h : ¬ IsStrictlyPositiveInteger body.amount) :
    ∃ r, submit cfg decodes rq rid body = (SubmitResult.reject 400 r, []) := by
  rcases submit_total_cases cfg decodes rq rid body with ⟨r, he⟩ |
    ⟨c, he, hf, hz, hneg, _, _, _⟩
  · exact ⟨r, he⟩
  · exfalso
    rcases numFalsy_false_shape _ hf with ⟨q, ha, hq0⟩
    have hnn : ¬ q < 0 := by
      rw [ha] at hneg
      simpa [jnumNeg] using hneg
    have hq : 0 < q := lt_of_le_of_ne (not_lt.mp hnn) (Ne.symm hq0)
    exact h (isPos_of_accepted _ q ha hq)

/-- C4 witness: amount 0 is not a strictly positive integer, and submitting
it is rejected with status 400 and an empty action trace. -/
theorem submit_rejects_nonpositive_amount_witness :
    ¬ IsStrictlyPositiveInteger bodyZero.amount ∧
      ∃ r, submit cfgEx decodeAll "rq" "rid" bodyZero =
        (SubmitResult.reject 400 r, []) := by
  have hnp : ¬ IsStrictlyPositiveInteger bodyZero.amount := by
    rintro ⟨n, hn, hv | hv⟩
    · simp only [bodyZero, bodyEx, JVal.num.injEq, JNumber.fin.injEq] at hv
      have hn0 : n = 0 := by exact_mod_cast hv.symm
      omega
    · simp [bodyZero, bodyEx] at hv
  exact ⟨hnp,
    submit_rejects_nonpositive_amount cfgEx decodeAll "rq" "rid" bodyZero hnp⟩

/-- C8: every publish to the work queue carries the process's reply queue
as `replyTo` and a broker-side message TTL no larger than the client-side
timer budget, and the same dispatch also starts that client-side timer. -/
theorem publish_carries_replyTo_and_ttl (cfg : Config)
    (decodes : String → Bool) (rq rid : String) (body : RequestBody)
    (wr : WalletRequest) (opts : PublishOptions)
    (h : Action.publish wr opts ∈ (submit cfg decodes rq rid body).2) :
    opts.replyTo = rq ∧ opts.expiration ≤ clientTimeoutMs ∧
      Action.startTimer clientTimeoutMs ∈ (submit cfg decodes rq rid body).2 := by
  rcases submit_total_cases cfg decodes rq rid body with ⟨r, he⟩ |
    ⟨c, he, _, _, _, _, _, _⟩
  · rw [he] at h
    simp at h
  · rw [he] at h ⊢
    simp only [mkDispatch, List.mem_cons, List.not_mem_nil, or_false] at h
    rcases h with h | h | h
    · cases h
    · rw [Action.publish.injEq] at h
      rw [h.2]
      refine ⟨rfl, by simp [messageExpirationMs, clientTimeoutMs], ?_⟩
      simp [mkDispatch]
    · cases h

/-- C8 witness: the publish performed for a concrete valid request carries
`replyTo = "rq"` and TTL 2000 ≤ 5000, alongside the 5000 ms timer. -/
theorem publish_carries_replyTo_and_ttl_witness :
    ({ correlationId := "rid", replyTo := "rq", expiration := 2000 } :
        PublishOptions).replyTo = "rq" ∧
      ({ correlationId := "rid", replyTo := "rq", expiration := 2000 } :
        PublishOptions).expiration ≤ clientTimeoutMs ∧
      Action.startTimer clientTimeoutMs ∈
        (submit cfgEx decodeAll "rq" "rid" bodyEx).2 :=
  publish_carries_replyTo_and_ttl cfgEx decodeAll "rq" "rid" bodyEx wrDefault
    { correlationId := "rid", replyTo := "rq", expiration := 2000 }
    (by decide)

/-- C2 (amended): no consumer is attached at process startup; instead every
call to `submit` that passes validation attaches exactly one fresh consumer
to the reply queue, and rejected calls attach none. -/
theorem consumer_attached_per_request :
    startupActions.countP isConsume = 0 ∧
      ∀ (cfg : Config) (decodes : String → Bool) (rq rid : String)
        (body : RequestBody),
        (submit cfg decodes rq rid body).2.countP isConsume =
          (if isDispatched (submit cfg decodes rq rid body).1 = true
            then 1 else 0) := by
  refine ⟨by decide, fun cfg decodes rq rid body => ?_⟩
  rcases submit_total_cases cfg decodes rq rid body with ⟨r, he⟩ |
    ⟨c, he, _, _, _, _, _, _⟩
  · rw [he]
    simp [isDispatched]
  · rw [he]
    simp [mkDispatch, isDispatched, isConsume, List.countP, List.countP.go]

/-- C2 counterexample: a concrete valid submission attaches a consumer to
the reply queue, while the startup sequence attaches none — refuting the
claim that the only consumer is attached once at startup and never by
`submit`. -/
theorem consumer_attached_per_request_counterexample :
    Action.consume ∈ (submit cfgEx decodeAll "rq" "rid" bodyEx).2 ∧
      startupActions.countP isConsume = 0 := by
  decide

/-- C7 (amended): a supplied confirmations value outside
`[0, maximumConfirmations]` causes the request to be rejected with HTTP 400
and nothing published (not defaulted); an absent confirmations value makes
every published work item carry the default confirmation count. -/
theorem confirmations_range_behaviour (cfg : Config)
    (decodes : String → Bool) (rq rid : String) (body : RequestBody) :
    (∀ q : ℚ, toNumber body.confirmations = some (JNumber.fin q) →
        (q < 0 ∨ (cfg.maximumConfirmations : ℚ) < q) →
        ∃ r, submit cfg decodes rq rid body = (SubmitResult.reject 400 r, [])) ∧
      (toNumber body.confirmations = none →
        ∀ wr opts,
          Action.publish wr opts ∈ (submit cfg decodes rq rid body).2 →
          wr.confirmations = JNumber.fin (cfg.defaultConfirmations : ℚ)) := by
  constructor
  · intro q hq hrange
    rcases submit_total_cases cfg decodes rq rid body with ⟨r, he⟩ |
      ⟨c, he, _, _, _, _, _, hconf⟩
    · exact ⟨r, he⟩
    · exfalso
      rcases hconf with ⟨hsome, hlt, hgt⟩ | ⟨hnone, _⟩
      · rw [hq] at hsome
        rw [Option.some.injEq] at hsome
        subst hsome
        rcases hrange with hr | hr
        · exact absurd hr (by simpa [jnumLtZeroB] using hlt)
        · exact absurd hr (by simpa [jnumGtMaxB] using hgt)
      · rw [hq] at hnone
        cases hnone
  · intro hnone wr opts hmem
    exact publish_default_of_conf_none cfg decodes rq rid body hnone wr opts
      hmem

/-- C7 counterexample: with maximum 60, supplying confirmations 61 on an
otherwise valid request is rejected with HTTP 400 and nothing is published —
refuting the claim that an out-of-range value falls back to the default. -/
theorem confirmations_high_rejected_counterexample :
    submit cfgEx decodeAll "rq" "rid" bodyConfHigh =
      (SubmitResult.reject 400 "Invalid confirmations requested", []) := by
  decide

/-- C7 witness: confirmations -1 on an otherwise valid request is rejected
with an empty action trace. -/
theorem confirmations_range_behaviour_witness :
    ∃ r, submit cfgEx decodeAll "rq" "rid" bodyConfNeg =
      (SubmitResult.reject 400 r, []) :=
  (confirmations_range_behaviour cfgEx decodeAll "rq" "rid" bodyConfNeg).1
    (-1) (by decide) (by decide)

/-- C9 (amended): a supplied non-empty callback whose first four characters,
lowercased, do not spell "http" is rejected with HTTP 400 before any broker
interaction; a request with no callback is never rejected with the
callback-validation reason.  (The original claim fails because an empty
callback string is coalesced to "absent" by `callback || false`.) -/
theorem callback_scheme_validation (cfg : Config) (decodes : String → Bool)
    (rq rid : String) :
    (∀ (body : RequestBody) (s : String), body.callback = some s → s ≠ "" →
        substringToLower4 s ≠ "http" →
        ∃ r, submit cfg decodes rq rid body =
          (SubmitResult.reject 400 r, [])) ∧
      (∀ body : RequestBody, body.callback = none →
        ∀ r, (submit cfg decodes rq rid body).1 = SubmitResult.reject 400 r →
          r ≠ "Invalid callback URL supplied") := by
  constructor
  · intro body s hcb hne hpre
    rcases submit_total_cases cfg decodes rq rid body with ⟨r, he⟩ |
      ⟨c, he, _, _, _, _, hok, _⟩
    · exact ⟨r, he⟩
    · exfalso
      have hjs : jsOrFalse body.callback = some s := by
        rw [hcb]
        simp [jsOrFalse, hne]
      rw [hjs] at hok
      simp only [callbackOk, beq_iff_eq] at hok
      exact hpre hok
  · intro body hnone r hr
    have hcb : callbackOk (jsOrFalse body.callback) = true := by
      rw [hnone]
      rfl
    unfold submit at hr
    split at hr
    · simp only [SubmitResult.reject.injEq] at hr
      rw [← hr.2]
      decide
    · split at hr
      · simp only [SubmitResult.reject.injEq] at hr
        rw [← hr.2]
        decide
      · split at hr
        next hcond =>
          rw [hcb] at hcond
          simp at hcond
        next =>
          split at hr
          · simp only [SubmitResult.reject.injEq] at hr
            rw [← hr.2]
            decide
          · split at hr
            · split at hr
              · simp only [SubmitResult.reject.injEq] at hr
                rw [← hr.2]
                decide
              · simp [mkDispatch] at hr
            · simp [mkDispatch] at hr

/-- C9 counterexample: supplying the empty string as callback — which does
not begin with an http(s) scheme — is not rejected: the request dispatches
and publishes, refuting the claim as stated. -/
theorem empty_callback_dispatched_counterexample :
    isDispatched (submit cfgEx decodeAll "rq" "rid" bodyEmptyCb).1 = true ∧
      substringToLower4 "" ≠ "http" ∧
      (submit cfgEx decodeAll "rq" "rid" bodyEmptyCb).2.countP isPublish = 1 := by
  decide

/-- C9 witness: the callback "ftp://x" is rejected with status 400 and an
empty action trace. -/
theorem callback_scheme_validation_witness :
    ∃ r, submit cfgEx decodeAll "rq" "rid" bodyBadCb =
      (SubmitResult.reject 400 r, []) :=
  (callback_scheme_validation cfgEx decodeAll "rq" "rid").1 bodyBadCb
    "ftp://x" rfl (by decide) (by decide)

/-- C10: a supplied confirmations value that is not an integer (a fractional
number, or a string failing the `parseInt` round-trip) is treated as absent:
`toNumber` returns `false`, every published work item carries the default
confirmation count, and the request is never rejected for confirmations. -/
theorem nonint_confirmations_treated_absent (cfg : Config)
    (decodes : String → Bool) (rq rid : String) (body : RequestBody)
    (h : NonIntegerConfirmations body.confirmations) :
    toNumber body.confirmations = none ∧
      (∀ wr opts,
        Action.publish wr opts ∈ (submit cfg decodes rq rid body).2 →
        wr.confirmations = JNumber.fin (cfg.defaultConfirmations : ℚ)) ∧
      (∀ r, (submit cfg decodes rq rid body).1 = SubmitResult.reject 400 r →
        r ≠ "Invalid confirmations requested") := by
  have hnone : toNumber body.confirmations = none := by
    rcases h with ⟨q, hv, hden⟩ | ⟨s, hv, hrt⟩
    · rw [hv]
      simp [toNumber, hden]
    · rw [hv]
      simp only [toNumber]
      cases hp : parseIntJS s with
      | some n =>
          have hts : toString n ≠ s := by
            simpa [roundTripFails, hp, bne_iff_ne] using hrt
          simp [hts]
      | none =>
          have hs : s ≠ "NaN" := by
            simpa [roundTripFails, hp, bne_iff_ne] using hrt
          simp [hs]
  refine ⟨hnone, ?_, ?_⟩
  · intro wr opts hmem
    exact publish_default_of_conf_none cfg decodes rq rid body hnone wr opts
      hmem
  · intro r hr
    rcases submit_total_cases cfg decodes rq rid body with ⟨r2, he⟩ |
      ⟨c, he, _, _, _, _, _, hconf⟩
    · -- identify which rejection branch produced r: none of the non-dispatch
      -- branches can be the confirmations rejection when toNumber is none
      unfold submit at hr
      split at hr
      · simp only [SubmitResult.reject.injEq] at hr
        rw [← hr.2]
        decide
      · split at hr
        · simp only [SubmitResult.reject.injEq] at hr
          rw [← hr.2]
          decide
        · split at hr
          · simp only [SubmitResult.reject.injEq] at hr
            rw [← hr.2]
            decide
          · split at hr
            · simp only [SubmitResult.reject.injEq] at hr
              rw [← hr.2]
              decide
            · split at hr
              next c2 heq =>
                rw [hnone] at heq
                cases heq
              next =>
                simp [mkDispatch] at hr
    · rw [he] at hr
      simp [mkDispatch] at hr

/-- C10 witness: the string "abc" fails the round-trip, `toNumber` maps it
to `false`, and submitting it never yields the confirmations rejection. -/
theorem nonint_confirmations_treated_absent_witness :
    toNumber bodyAbc.confirmations = none ∧
      (∀ r, (submit cfgEx decodeAll "rq" "rid" bodyAbc).1 =
          SubmitResult.reject 400 r → r ≠ "Invalid confirmations requested") := by
  have h := nonint_confirmations_treated_absent cfgEx decodeAll "rq" "rid"
    bodyAbc (Or.inr ⟨"abc", rfl, by decide⟩)
  exact ⟨h.1, h.2.2⟩

/-- C1 (amended): a reply delivered with a correlation id different from the
pending request's id is negatively acknowledged — returned to the queue —
and nothing else happens: the dispatch state is unchanged (no response, no
timer side effect) and the callback does not raise. -/
theorem unmatched_reply_nacked (ctx : PendingCtx) (enc : String → String)
    (st : DispatchState) (msg : Message)
    (h : msg.correlationId ≠ ctx.requestId) :
    consumeCallback ctx enc st msg =
      { state := st, actions := [CbAction.nack], raised := false } := by
  unfold consumeCallback
  rw [if_neg h]

/-- C1 counterexample: a well-formed reply with a foreign correlation id is
nacked and not acked, refuting the claim that it is acknowledged and
discarded without being returned to the queue. -/
theorem unmatched_reply_nacked_counterexample :
    CbAction.nack ∈ (consumeCallback ctxEx id st0 msgForeign).actions ∧
      CbAction.ack ∉ (consumeCallback ctxEx id st0 msgForeign).actions := by
  decide

/-- C1 witness: a concrete foreign-id delivery is nacked with the state
untouched and no raise. -/
theorem unmatched_reply_nacked_witness :
    consumeCallback ctxEx id st0 msgForeign2 =
      { state := st0, actions := [CbAction.nack], raised := false } :=
  unmatched_reply_nacked ctxEx id st0 msgForeign2 (by decide)

/-- C5 (amended): a reply matching the still-pending request acknowledges
the message, cancels the timer, and resolves the caller's response with the
reply payload untouched field-for-field under the mapping
`reply.address → sendToAddress`, `reply.scanHeight → startHeight`,
`reply.maxHeight → endHeight`, `reply.publicKey → callbackPublicKey`
(the response field for the address is `sendToAddress`, not
`assignedAddress`); afterwards the timer step is inert, so no timeout
fires. -/
theorem matched_reply_resolves (ctx : PendingCtx) (enc : String → String)
    (st : DispatchState) (msg : Message) (wr : WorkerResponse)
    (hm : msg.correlationId = ctx.requestId)
    (hc : msg.content = Content.json wr)
    (hs : st.responses = []) :
    consumeCallback ctx enc st msg =
      { state := { st with
                   timerCancelled := true,
                   responses := [successResponse ctx enc wr] },
        actions := [CbAction.ack, CbAction.clearTimer,
                    CbAction.respond (successResponse ctx enc wr)],
        raised := false } ∧
      (successResponse ctx enc wr).body.lookup "sendToAddress" =
        some (RVal.vstr wr.address) ∧
      (successResponse ctx enc wr).body.lookup "startHeight" =
        some (RVal.vnum (wr.scanHeight : ℚ)) ∧
      (successResponse ctx enc wr).body.lookup "endHeight" =
        some (RVal.vnum (wr.maxHeight : ℚ)) ∧
      (successResponse ctx enc wr).body.lookup "callbackPublicKey" =
        some (RVal.vstr wr.publicKey) ∧
      timerStep (consumeCallback ctx enc st msg).state =
        (consumeCallback ctx enc st msg).state := by
  cases msg with
  | mk mid mcont =>
      simp only at hm hc
      subst hm
      subst hc
      refine ⟨?_, rfl, rfl, rfl, rfl, ?_⟩
      · simp [consumeCallback, hs]
      · simp [consumeCallback, hs, timerStep]

/-- C5 counterexample: in the spec's scenario the resolved response object
has no `assignedAddress` field — the reply's address is delivered under
`sendToAddress` — refuting the claimed field mapping
`reply.address → assignedAddress`. -/
theorem matched_reply_no_assignedAddress_counterexample :
    (consumeCallback ctxEx id st0 msgSc).state.responses =
        [successResponse ctxEx id wrSc] ∧
      (successResponse ctxEx id wrSc).body.lookup "assignedAddress" = none ∧
      (successResponse ctxEx id wrSc).body.lookup "sendToAddress" =
        some (RVal.vstr "valid123") := by
  decide

/-- C5 witness: the scenario reply (address "valid123", scanHeight 100,
maxHeight 200, publicKey "pub") resolves with the amended field mapping and
an inert timer. -/
theorem matched_reply_resolves_witness :
    consumeCallback ctxEx id st0 msgSc =
      { state := { st0 with
                   timerCancelled := true,
                   responses := [successResponse ctxEx id wrSc] },
        actions := [CbAction.ack, CbAction.clearTimer,
                    CbAction.respond (successResponse ctxEx id wrSc)],
        raised := false } ∧
      (successResponse ctxEx id wrSc).body.lookup "sendToAddress" =
        some (RVal.vstr wrSc.address) ∧
      (successResponse ctxEx id wrSc).body.lookup "startHeight" =
        some (RVal.vnum (wrSc.scanHeight : ℚ)) ∧
      (successResponse ctxEx id wrSc).body.lookup "endHeight" =
        some (RVal.vnum (wrSc.maxHeight : ℚ)) ∧
      (successResponse ctxEx id wrSc).body.lookup "callbackPublicKey" =
        some (RVal.vstr wrSc.publicKey) ∧
      timerStep (consumeCallback ctxEx id st0 msgSc).state =
        (consumeCallback ctxEx id st0 msgSc).state :=
  matched_reply_resolves ctxEx id st0 msgSc wrSc rfl rfl rfl

/-- C6 (amended): the consume callback raises exactly when the delivered
message matches the pending correlation id and either its content is not
valid JSON (`JSON.parse` throws, uncaught) or a response has already been
written; every non-matching delivery — malformed or not — is nacked without
raising. -/
theorem consumer_raises_iff (ctx : PendingCtx) (enc : String → String)
    (st : DispatchState) (msg : Message) :
    (consumeCallback ctx enc st msg).raised = true ↔
      (msg.correlationId = ctx.requestId ∧
        (msg.content = Content.notJson ∨ st.responses ≠ [])) := by
  unfold consumeCallback
  by_cases hm : msg.correlationId = ctx.requestId
  · rw [if_pos hm]
    cases hc : msg.content with
    | json wr =>
        by_cases hs : st.responses = []
        · simp [hs, hm]
        · simp [hs, hm]
    | notJson => simp [hm]
  · rw [if_neg hm]
    simp [hm]

/-- C6 counterexample: a matching reply whose content is not valid JSON
makes the consume callback raise, refuting the claim that the callback
never raises. -/
theorem consumer_raises_on_malformed_counterexample :
    (consumeCallback ctxEx id st0 msgBadJson).raised = true := by
  decide

theorem stepEv_inv (ctx : PendingCtx) (enc : String → String)
    (st : DispatchState) (e : DEvent) (h : MachineInv st) :
    MachineInv (stepEv ctx enc st e) := by
  obtain ⟨h1, h2⟩ := h
  cases e with
  | fire =>
      by_cases hc : st.timerCancelled = true
      · simpa [stepEv, timerStep, hc, MachineInv] using ⟨h1, h2 hc⟩
      · by_cases hr : st.responses = []
        · simp [stepEv, timerStep, hc, hr, MachineInv]
        · simp only [stepEv, timerStep, hc, if_false, Bool.false_eq_true,
            if_neg hr, MachineInv]
          exact ⟨h1, fun _ => hr⟩
  | deliver m =>
      by_cases hm : m.correlationId = ctx.requestId
      · cases hcont : m.content with
        | json wr =>
            by_cases hr : st.responses = []
            · simp [stepEv, consumeCallback, hm, hcont, hr, MachineInv]
            · simp only [stepEv, consumeCallback, hm, hcont, if_pos rfl,
                if_neg hr, MachineInv]
              exact ⟨h1, fun _ => hr⟩
        | notJson =>
            simp only [stepEv, consumeCallback, hm, hcont, if_pos rfl,
              MachineInv]
            exact ⟨h1, h2⟩
      · simp only [stepEv, consumeCallback, if_neg hm, MachineInv]
        exact ⟨h1, h2⟩

theorem stepEv_resp_mono (ctx : PendingCtx) (enc : String → String)
    (st : DispatchState) (e : DEvent) (h : st.responses ≠ []) :
    (stepEv ctx enc st e).responses ≠ [] := by
  cases e with
  | fire =>
      by_cases hc : st.timerCancelled = true
      · simpa [stepEv, timerStep, hc] using h
      · simp only [stepEv, timerStep, hc, if_false, Bool.false_eq_true,
          if_neg h]
        exact h
  | deliver m =>
      by_cases hm : m.correlationId = ctx.requestId
      · cases hcont : m.content with
        | json wr =>
            simp only [stepEv, consumeCallback, hm, hcont, if_pos rfl,
              if_neg h]
            exact h
        | notJson =>
            simp only [stepEv, consumeCallback, hm, hcont, if_pos rfl]
            exact h
      · simp only [stepEv, consumeCallback, if_neg hm]
        exact h

theorem stepEv_trigger_resp (ctx : PendingCtx) (enc : String → String)
    (st : DispatchState) (e : DEvent) (hinv : MachineInv st)
    (ht : isTrigger ctx e = true) :
    (stepEv ctx enc st e).responses ≠ [] := by
  obtain ⟨h1, h2⟩ := hinv
  cases e with
  | fire =>
      by_cases hc : st.timerCancelled = true
      · simpa [stepEv, timerStep, hc] using h2 hc
      · by_cases hr : st.responses = []
        · simp [stepEv, timerStep, hc, hr]
        · simp only [stepEv, timerStep, hc, if_false, Bool.false_eq_true,
            if_neg hr]
          exact hr
  | deliver m =>
      simp only [isTrigger, Bool.and_eq_true, decide_eq_true_eq] at ht
      obtain ⟨hm, hj⟩ := ht
      cases hcont : m.content with
      | json wr =>
          by_cases hr : st.responses = []
          · simp [stepEv, consumeCallback, hm, hcont, hr]
          · simp only [stepEv, consumeCallback, hm, hcont, if_pos rfl,
              if_neg hr]
            exact hr
      | notJson =>
          rw [hcont] at hj
          simp [Content.isJson] at hj

theorem runEvents_inv (ctx : PendingCtx) (enc : String → String)
    (run : List DEvent) :
    ∀ st, MachineInv st → MachineInv (runEvents ctx enc st run) := by
  induction run with
  | nil => exact fun st h => h
  | cons e rest ih => exact fun st h => ih _ (stepEv_inv ctx enc st e h)

theorem runEvents_resp_mono (ctx : PendingCtx) (enc : String → String)
    (run : List DEvent) :
    ∀ st, st.responses ≠ [] → (runEvents ctx enc st run).responses ≠ [] := by
  induction run with
  | nil => exact fun st h => h
  | cons e rest ih => exact fun st h => ih _ (stepEv_resp_mono ctx enc st e h)

theorem run_trigger_nonempty (ctx : PendingCtx) (enc : String → String)
    (run : List DEvent) :
    ∀ st, MachineInv st → (∃ e ∈ run, isTrigger ctx e = true) →
      (runEvents ctx enc st run).responses ≠ [] := by
  induction run with
  | nil =>
      intro st _ h
      rcases h with ⟨e, he, _⟩
      exact absurd he (List.not_mem_nil e)
  | cons e rest ih =>
      intro st hinv h
      rcases h with ⟨f, hf, hft⟩
      rcases List.mem_cons.mp hf with heq | hfr
      · subst heq
        exact runEvents_resp_mono ctx enc rest _
          (stepEv_trigger_resp ctx enc st f hinv hft)
      · exact ih _ (stepEv_inv ctx enc st e hinv) ⟨f, hfr, hft⟩

/-- C3: for a pending request, over every interleaving of reply deliveries
and timer expiry, the caller observes at most one terminal response — never
both a success and a timeout, never two successes — and exactly one as soon
as the run contains a terminal trigger (timer expiry or a matching,
parseable reply). -/
theorem terminal_transition_exactly_once (ctx : PendingCtx)
    (enc : String → String) (run : List DEvent) :
    (runEvents ctx enc st0 run).responses.length ≤ 1 ∧
      ((∃ e ∈ run, isTrigger ctx e = true) →
        (runEvents ctx enc st0 run).responses.length = 1) := by
  have hinv0 : MachineInv st0 := by
    constructor
    · simp [st0]
    · intro h
      simp [st0] at h
  have hinv := runEvents_inv ctx enc run st0 hinv0
  refine ⟨hinv.1, fun h => ?_⟩
  have hne := run_trigger_nonempty ctx enc run st0 hinv0 h
  have hpos : 0 < (runEvents ctx enc st0 run).responses.length :=
    List.length_pos.mpr hne
  have hle := hinv.1
  omega

/-- C3 witness: a run consisting of a foreign-id delivery followed by timer
expiry contains a trigger and yields exactly one caller-visible response. -/
theorem terminal_transition_exactly_once_witness :
    (runEvents ctxEx id st0
      [DEvent.deliver msgForeign, DEvent.fire]).responses.length = 1 :=
  (terminal_transition_exactly_once ctxEx id
    [DEvent.deliver msgForeign, DEvent.fire]).2
    ⟨DEvent.fire, by decide, rfl⟩

end Zum

